import Mathlib

/-!
Verification development for the WSO2 API Manager 2.6.0 adapter
(`src/2.6.0/wso2apim.js`).

The adapter translates logical API-lifecycle operations into HTTP calls.
Its only algorithmic content is the pure payload mapper `constructAPIDef`
(with its helper `constructCorsConfiguration`) and the per-operation
`catch` handlers that classify HTTP errors.  We embed those shallowly:

* JS objects become Lean structures; a field that may be absent
  (`undefined`) becomes an `Option`;
* JS truthiness tests on strings (`if (x)`) become `x ≠ ""` on present
  strings, on numbers `n ≠ 0`, on objects/arrays presence alone (objects
  and arrays are always truthy in JS, even when empty);
* `JSON.stringify` of the fixed-shape `endpointConfig` object is kept as
  the pre-serialization record (`EndpointConfig`): serialization is
  injective on it, so field-level claims are stated on the record;
* the `.catch((err) => ...)` callbacks become pure functions from the
  received error to the list of error-logging calls performed and the
  value the promise is rejected with.
-/

namespace Wso2

/-- A JS truthiness test on a possibly-absent string: `undefined` and the
empty string are falsy, any other string is truthy. -/
def jsTruthy : Option String → Bool
  | some s => s ≠ ""
  | none => false

/-- `qs.stringify(parameters, { encode: false })` on a flat map of
string-valued parameters: `key=value` pairs in object order joined by
`&`, with NO URL-encoding (the source passes `encode: false`). -/
def qsStringifyNoEncode (ps : List (String × String)) : String :=
  String.intercalate "&" (ps.map fun p => p.1 ++ "=" ++ p.2)

/-- `apiDef.backend.http`: an HTTP backend descriptor. -/
structure HttpBackend where
  baseUrl : Option String
  deriving Repr, DecidableEq

/-- `apiDef.backend.jms`: a JMS backend descriptor.  The `parameters`
object is modelled as an ordered association list of string-valued
entries (JS objects preserve insertion order of string keys). -/
structure JmsBackend where
  destination : Option String
  parameters : List (String × String)
  deriving Repr, DecidableEq

/-- `apiDef.backend`: at most one of `http` / `jms` is meant to be set,
but nothing enforces that; `endpointType` is an optional override. -/
structure Backend where
  http : Option HttpBackend
  jms : Option JmsBackend
  endpointType : Option String
  deriving Repr, DecidableEq

/-- `apiDef.mediationPolicies`: optional named policies for the `in`,
`out` and `fault` flows (field names adjusted, `in` is reserved). -/
structure MediationPolicies where
  inSeq : Option String
  outSeq : Option String
  faultSeq : Option String
  deriving Repr, DecidableEq

/-- `apiDef.cors`: the caller-side CORS block; every field optional. -/
structure Cors where
  origins : Option (List String)
  credentials : Option Bool
  headers : Option (List String)
  methods : Option (List String)
  deriving Repr, DecidableEq

/-- `swaggerSpec.info.contact`. -/
structure Contact where
  email : Option String
  name : Option String
  deriving Repr, DecidableEq

/-- `swaggerSpec.info`. -/
structure SwaggerInfo where
  contact : Option Contact
  deriving Repr, DecidableEq

/-- The embedded swagger/OpenAPI document.  Only `info.contact` is
inspected field-by-field by the mapper; the rest of the document only
flows through `JSON.stringify(apiDef.swaggerSpec)`, which we keep
abstract as the `serialized` form of the document. -/
structure SwaggerSpec where
  info : Option SwaggerInfo
  serialized : String
  deriving Repr, DecidableEq

/-- The well-formed logical API definition (input of `constructAPIDef`):
`backend`, `tags` and `swaggerSpec` are present, as the code requires. -/
structure ApiDef where
  name : String
  description : String
  rootContext : String
  version : String
  visibility : String
  tags : List String
  swaggerSpec : SwaggerSpec
  backend : Backend
  mediationPolicies : Option MediationPolicies
  maxTps : Option Nat
  apiProperties : Option (List (String × String))
  cors : Option Cors
  deriving Repr, DecidableEq

/-- One entry of the `sequences` list: `{ name, type }`. -/
structure Sequence where
  name : String
  type : String
  deriving Repr, DecidableEq

/-- `maxTps: { sandbox, production }` of the output. -/
structure MaxTps where
  sandbox : Option Nat
  production : Option Nat
  deriving Repr, DecidableEq

/-- One of `production_endpoints` / `sandbox_endpoints`:
`{ url, config: null }` (`config` is always `null`, kept as `none`). -/
structure EndpointDetail where
  url : Option String
  config : Option String
  deriving Repr, DecidableEq

/-- The object passed to `JSON.stringify` for `endpointConfig`. -/
structure EndpointConfig where
  production_endpoints : EndpointDetail
  sandbox_endpoints : EndpointDetail
  endpoint_type : String
  deriving Repr, DecidableEq

/-- `businessInformation` of the output. -/
structure BusinessInformation where
  businessOwnerEmail : Option String
  technicalOwnerEmail : Option String
  technicalOwner : Option String
  businessOwner : Option String
  deriving Repr, DecidableEq

/-- `corsConfiguration` of the output. -/
structure CorsConfiguration where
  corsConfigurationEnabled : Bool
  accessControlAllowOrigins : List String
  accessControlAllowCredentials : Bool
  accessControlAllowHeaders : List String
  accessControlAllowMethods : List String
  deriving Repr, DecidableEq

/-- The vendor API definition produced by `constructAPIDef`
(`wso2ApiDefinition` in the source).  `endpointSecurity` is always
`null` (kept as an always-`none` option). -/
structure Wso2ApiDefinition where
  id : Option String
  name : String
  description : String
  context : String
  version : String
  provider : String
  apiDefinition : String
  status : String
  isDefaultVersion : Bool
  type : Option String
  transport : List String
  tags : List String
  tiers : List String
  maxTps : MaxTps
  visibility : String
  endpointConfig : EndpointConfig
  endpointSecurity : Option String
  gatewayEnvironments : String
  sequences : List Sequence
  additionalProperties : Option (List (String × String))
  subscriptionAvailability : String
  subscriptionAvailableTenants : List String
  businessInformation : BusinessInformation
  corsConfiguration : Option CorsConfiguration
  deriving Repr, DecidableEq

/-- `constructCorsConfiguration(apiDef)` (source lines 253-276).  The
source destructures `apiDef.cors` (the caller ensures it is present);
we take the block directly.  `x || d` on a possibly-absent field: an
absent field falls back to the default; a present array is truthy even
when empty, and for `credentials` both `false` and absent give `false`,
exactly `Option.getD`. -/
def constructCorsConfiguration (cors : Cors) : CorsConfiguration :=
  { corsConfigurationEnabled := true
    accessControlAllowOrigins := cors.origins.getD ["*"]
    accessControlAllowCredentials := cors.credentials.getD false
    accessControlAllowHeaders :=
      cors.headers.getD
        ["Authorization", "Access-Control-Allow-Origin", "Content-Type", "SOAPAction"]
    accessControlAllowMethods :=
      cors.methods.getD ["GET", "PUT", "POST", "DELETE", "PATCH", "OPTIONS"] }

/-- `swaggerSpec.info && info.contact && contact.email ? email :
undefined` (truthiness: an empty email string also gives `undefined`). -/
def contactEmailOf (s : SwaggerSpec) : Option String :=
  match s.info with
  | some i =>
    match i.contact with
    | some c => if jsTruthy c.email then c.email else none
    | none => none
  | none => none

/-- Same chain for `contact.name`. -/
def contactNameOf (s : SwaggerSpec) : Option String :=
  match s.info with
  | some i =>
    match i.contact with
    | some c => if jsTruthy c.name then c.name else none
    | none => none
  | none => none

/-- `constructAPIDef(user, gatewayEnv, apiDef, apiId)` (source lines
161-251), on well-formed input (the happy path of its `try` block; the
trailing resets of the two local variables have no observable effect). -/
def constructAPIDef (user : String) (gatewayEnv : String) (apiDef : ApiDef)
    (apiId : Option String) : Wso2ApiDefinition :=
  let backendPair : Option String × Option String :=
    match apiDef.backend.http with
    | some h =>
      ((if jsTruthy h.baseUrl then h.baseUrl else none), some "HTTP")
    | none =>
      match apiDef.backend.jms with
      | some j =>
        ((match j.destination with
          | some d =>
            if d = "" then none
            else
              some (String.intercalate "?"
                [String.intercalate "/" ["jms:", d],
                 qsStringifyNoEncode j.parameters])
          | none => none), some "HTTP")
      | none => (none, none)
  let backendBaseUrl := backendPair.1
  let backendType := backendPair.2
  let mediationPolicies : List Sequence :=
    match apiDef.mediationPolicies with
    | none => []
    | some mp =>
      (if jsTruthy mp.inSeq then [⟨mp.inSeq.getD "", "in"⟩] else []) ++
      (if jsTruthy mp.outSeq then [⟨mp.outSeq.getD "", "out"⟩] else []) ++
      (if jsTruthy mp.faultSeq then [⟨mp.faultSeq.getD "", "fault"⟩] else [])
  { id := apiId
    name := apiDef.name
    description := apiDef.description
    context := apiDef.rootContext
    version := apiDef.version
    provider := user
    apiDefinition := apiDef.swaggerSpec.serialized
    status := "CREATED"
    isDefaultVersion := false
    type := backendType
    transport := ["https"]
    tags := apiDef.tags ++ ["serverless-wso2-apim"]
    tiers := ["Unlimited"]
    maxTps :=
      { sandbox := match apiDef.maxTps with
          | some n => if n = 0 then none else some n
          | none => none
        production := match apiDef.maxTps with
          | some n => if n = 0 then none else some n
          | none => none }
    visibility := apiDef.visibility
    endpointConfig :=
      { production_endpoints := { url := backendBaseUrl, config := none }
        sandbox_endpoints := { url := backendBaseUrl, config := none }
        endpoint_type :=
          if jsTruthy apiDef.backend.endpointType then
            apiDef.backend.endpointType.getD ""
          else "http" }
    endpointSecurity := none
    gatewayEnvironments := gatewayEnv
    sequences := mediationPolicies
    additionalProperties :=
      match apiDef.apiProperties with
      | some ps => if ps.length > 0 then some ps else none
      | none => none
    subscriptionAvailability := "current_tenant"
    subscriptionAvailableTenants := []
    businessInformation :=
      { businessOwnerEmail := contactEmailOf apiDef.swaggerSpec
        technicalOwnerEmail := contactEmailOf apiDef.swaggerSpec
        technicalOwner := contactNameOf apiDef.swaggerSpec
        businessOwner := contactNameOf apiDef.swaggerSpec }
    corsConfiguration :=
      match apiDef.cors with
      | some c => some (constructCorsConfiguration c)
      | none => none }

/-- A failing HTTP call as seen inside a `.catch` handler: the vendor
error payload carries a code (`err.response.data.code`; the loose JS
inequality used by the handlers equates the numeric and the string form
of the code, so a numeric code suffices) and a message.  The model
covers errors that carry a vendor response, which is what the claims
quantify over. -/
structure HttpError where
  code : Nat
  message : String
  deriving Repr, DecidableEq

/-- The value a handler rejects its promise with: either the received
error object itself, or the JS `undefined` produced by an expression
with no value. -/
inductive RejectValue
  | err : HttpError → RejectValue
  | jsUndefined : RejectValue
  deriving Repr, DecidableEq

/-- Modelled from the spec: `utils.renderError` lives in
`src/utils/utils.js`, which is not among the sources here.  Section 7
describes it as the error-logging side effect (failures "are logged
(rendered) before being propagated"); it renders the error and produces
no value, so as a JS expression its result is `undefined`. -/
def renderErrorResult : RejectValue := RejectValue.jsUndefined

/-- Outcome of running a `.catch` handler on an error: which errors were
passed to `utils.renderError` (in order), and the rejection value. -/
structure CatchResult where
  logged : List HttpError
  rejection : RejectValue
  deriving Repr, DecidableEq

/-- `registerClient` catch handler (lines 47-50): log, then reject with
the error. -/
def registerClientCatch (e : HttpError) : CatchResult :=
  { logged := [e], rejection := RejectValue.err e }

/-- `generateToken` catch handler (lines 89-92). -/
def generateTokenCatch (e : HttpError) : CatchResult :=
  { logged := [e], rejection := RejectValue.err e }

/-- `isAPIDeployed` catch handler (lines 119-122). -/
def isAPIDeployedCatch (e : HttpError) : CatchResult :=
  { logged := [e], rejection := RejectValue.err e }

/-- `isCertUploaded` catch handler (lines 147-153): a 404 vendor code is
not logged; every error is rejected as-is. -/
def isCertUploadedCatch (e : HttpError) : CatchResult :=
  { logged := if e.code ≠ 404 then [e] else []
    rejection := RejectValue.err e }

/-- `createAPIDef` catch handler (lines 304-308): the promise is
rejected with `utils.renderError(err)` — the result of the logging
call, not the error. -/
def createAPIDefCatch (e : HttpError) : CatchResult :=
  { logged := [e], rejection := renderErrorResult }

/-- `publishAPIDef` catch handler (lines 339-342). -/
def publishAPIDefCatch (e : HttpError) : CatchResult :=
  { logged := [e], rejection := RejectValue.err e }

/-- `listInvokableAPIUrl` catch handler (lines 368-371). -/
def listInvokableAPIUrlCatch (e : HttpError) : CatchResult :=
  { logged := [e], rejection := RejectValue.err e }

/-- `uploadCert` catch handler (lines 402-408): a 409 vendor code is not
logged; every error is rejected as-is. -/
def uploadCertCatch (e : HttpError) : CatchResult :=
  { logged := if e.code ≠ 409 then [e] else []
    rejection := RejectValue.err e }

/-- `updateAPIDef` catch handler (lines 437-440). -/
def updateAPIDefCatch (e : HttpError) : CatchResult :=
  { logged := [e], rejection := RejectValue.err e }

/-- `removeAPIDef` catch handler (lines 466-469). -/
def removeAPIDefCatch (e : HttpError) : CatchResult :=
  { logged := [e], rejection := RejectValue.err e }

/-- `removeCert` catch handler (lines 495-501): a 404 vendor code is not
logged; every error is rejected as-is. -/
def removeCertCatch (e : HttpError) : CatchResult :=
  { logged := if e.code ≠ 404 then [e] else []
    rejection := RejectValue.err e }

/-- `updateCert` catch handler (lines 530-533). -/
def updateCertCatch (e : HttpError) : CatchResult :=
  { logged := [e], rejection := RejectValue.err e }

/-- `listCertInfo` catch handler (lines 560-563). -/
def listCertInfoCatch (e : HttpError) : CatchResult :=
  { logged := [e], rejection := RejectValue.err e }

/-- A raw (possibly malformed) logical definition: `backend`, `tags` and
`swaggerSpec` may be absent, which is what the well-formedness side
conditions are about. -/
structure RawApiDef where
  name : String
  description : String
  rootContext : String
  version : String
  visibility : String
  tags : Option (List String)
  swaggerSpec : Option SwaggerSpec
  backend : Option Backend
  mediationPolicies : Option MediationPolicies
  maxTps : Option Nat
  apiProperties : Option (List (String × String))
  cors : Option Cors
  deriving Repr, DecidableEq

/-- `constructAPIDef` on raw input, `try`/`catch` included.  Reading
`.http` off a missing `backend`, spreading missing `tags`, or reading
`.info` off a missing `swaggerSpec` throws a `TypeError`, which the
`catch` block logs and swallows, making the function return
`undefined` (`none`); the result is observationally the same whichever
of the three accesses throws first.  On well-formed input the body is
the pure mapping above. -/
def constructAPIDefRaw (user : String) (gatewayEnv : String) (d : RawApiDef)
    (apiId : Option String) : Option Wso2ApiDefinition :=
  match d.backend, d.tags, d.swaggerSpec with
  | some b, some t, some s =>
    some (constructAPIDef user gatewayEnv
      { name := d.name
        description := d.description
        rootContext := d.rootContext
        version := d.version
        visibility := d.visibility
        tags := t
        swaggerSpec := s
        backend := b
        mediationPolicies := d.mediationPolicies
        maxTps := d.maxTps
        apiProperties := d.apiProperties
        cors := d.cors } apiId)
  | _, _, _ => none

/-- Modelled from the spec: the spec asserts the JMS parameters are
rendered "URL-encoded".  Percent-encoding of one ASCII character per
RFC 3986: unreserved characters stay, any other character with code
below 256 becomes `%HH` (uppercase hex); characters beyond that range
are left unchanged (the comparison below only involves ASCII). -/
def specEncodeChar (c : Char) : String :=
  if c.isAlphanum || c = '-' || c = '_' || c = '.' || c = '~' then
    String.singleton c
  else if c.toNat < 256 then
    let hi := c.toNat / 16
    let lo := c.toNat % 16
    let hexDigit : Nat → Char := fun n =>
      if n < 10 then Char.ofNat (48 + n) else Char.ofNat (55 + n)
    String.singleton '%' ++ String.singleton (hexDigit hi) ++
      String.singleton (hexDigit lo)
  else
    String.singleton c

/-- Modelled from the spec: URL-encode a whole string,
character by character. -/
def specUrlEncode (s : String) : String :=
  String.join (s.toList.map specEncodeChar)

/-- Modelled from the spec: the parameter rendering the spec claims —
URL-encoded `key=value` pairs, in order, joined by `&`. -/
def specRenderParams (ps : List (String × String)) : String :=
  String.intercalate "&"
    (ps.map fun p => specUrlEncode p.1 ++ "=" ++ specUrlEncode p.2)

/-! ### Sample inputs used by witnesses and counterexamples -/

/-- A sample swagger document with contact info. -/
def sampleSwagger : SwaggerSpec :=
  { info := some { contact := some { email := some "owner@example.com"
                                     name := some "API Owner" } }
    serialized := "swagger-v2-document" }

/-- A sample well-formed definition with an HTTP backend and no CORS. -/
def sampleHttpDef : ApiDef :=
  { name := "PetStore"
    description := "Pet store API"
    rootContext := "/petstore"
    version := "v1"
    visibility := "PUBLIC"
    tags := ["pets"]
    swaggerSpec := sampleSwagger
    backend := { http := some { baseUrl := some "https://backend.example.com:8443/api" }
                 jms := none
                 endpointType := none }
    mediationPolicies := none
    maxTps := none
    apiProperties := none
    cors := none }

/-- A JMS-backed definition with the two-parameter map of the spec
example. -/
def sampleJmsDef : ApiDef :=
  { sampleHttpDef with
    backend := { http := none
                 jms := some { destination := some "D"
                               parameters := [("a", "1"), ("b", "2")] }
                 endpointType := none } }

/-- A JMS-backed definition whose single parameter value contains a
space, a character every URL-encoding must escape. -/
def spaceParamJmsDef : ApiDef :=
  { sampleHttpDef with
    backend := { http := none
                 jms := some { destination := some "MyQueue"
                               parameters := [("a", "x y")] }
                 endpointType := none } }

/-- A definition that sets `backend.endpointType` to the empty string. -/
def emptyEndpointTypeDef : ApiDef :=
  { sampleHttpDef with
    backend := { http := some { baseUrl := some "https://backend.example.com:8443/api" }
                 jms := none
                 endpointType := some "" } }

/-- A definition with a CORS block that only sets `origins`. -/
def corsOriginsDef : ApiDef :=
  { sampleHttpDef with
    cors := some { origins := some ["https://www.example.com"]
                   credentials := none
                   headers := none
                   methods := none } }

/-- A definition carrying both an HTTP and a JMS backend. -/
def bothBackendsDef : ApiDef :=
  { sampleHttpDef with
    backend := { http := some { baseUrl := some "https://backend.example.com:8443/api" }
                 jms := some { destination := some "D"
                               parameters := [("a", "1")] }
                 endpointType := none } }

/-- A raw, well-formed counterpart of `sampleHttpDef`. -/
def sampleRawDef : RawApiDef :=
  { name := "PetStore"
    description := "Pet store API"
    rootContext := "/petstore"
    version := "v1"
    visibility := "PUBLIC"
    tags := some ["pets"]
    swaggerSpec := some sampleSwagger
    backend := some { http := some { baseUrl := some "https://backend.example.com:8443/api" }
                      jms := none
                      endpointType := none }
    mediationPolicies := none
    maxTps := none
    apiProperties := none
    cors := none }

/-- Joining a two-element list is concatenation around the separator
(the shape `[x, y].join(sep)` takes in the JMS branch). -/
lemma intercalate_pair (s a b : String) :
    String.intercalate s [a, b] = a ++ s ++ b := by
  simp [String.intercalate, String.intercalate.go]

/-- A definition that sets `backend.endpointType` to a nonempty value. -/
def addressEndpointTypeDef : ApiDef :=
  { sampleHttpDef with
    backend := { http := some { baseUrl := some "https://backend.example.com:8443/api" }
                 jms := none
                 endpointType := some "address" } }

/-! ### Claims -/

/-- C1 (counterexample): the claim says the JMS parameters are rendered
URL-encoded.  The source passes `encode: false` to `qs.stringify`, so a
parameter value containing a space is emitted with the raw space, while
any URL-encoding renders the space as `%20`: at destination `MyQueue`
and parameters `a = "x y"` the produced URL differs from the
URL-encoded one the claim demands. -/
theorem jms_url_not_urlencoded :
    (constructAPIDef "admin" "Production" spaceParamJmsDef
        none).endpointConfig.production_endpoints.url
      = some "jms:/MyQueue?a=x y" ∧
    "jms:/MyQueue?" ++ specRenderParams [("a", "x y")] = "jms:/MyQueue?a=x%20y" ∧
    (constructAPIDef "admin" "Production" spaceParamJmsDef
        none).endpointConfig.production_endpoints.url
      ≠ some ("jms:/MyQueue?" ++ specRenderParams [("a", "x y")]) := by
  refine ⟨by decide, by decide, by decide⟩

/-- C1 (amended): for every logical definition whose backend is JMS with
a nonempty destination `D` and a parameters map, `constructAPIDef`
synthesizes the backend URL `jms:/D?<parameters>` for both the
production and the sandbox endpoint, where the parameters are rendered
in order as plain (NOT URL-encoded) `key=value` pairs joined by `&`,
and the declared type field is `HTTP`. -/
theorem constructAPIDef_jms_url (u g : String) (d : ApiDef) (i : Option String)
    (j : JmsBackend) (dest : String)
    (hh : d.backend.http = none) (hj : d.backend.jms = some j)
    (hd : j.destination = some dest) (hne : dest ≠ "") :
    (constructAPIDef u g d i).type = some "HTTP" ∧
    (constructAPIDef u g d i).endpointConfig.production_endpoints.url =
      some ("jms:/" ++ dest ++ "?" ++
        String.intercalate "&" (j.parameters.map fun p => p.1 ++ "=" ++ p.2)) ∧
    (constructAPIDef u g d i).endpointConfig.sandbox_endpoints.url =
      some ("jms:/" ++ dest ++ "?" ++
        String.intercalate "&" (j.parameters.map fun p => p.1 ++ "=" ++ p.2)) := by
  have hmerge : ("jms:" ++ "/" : String) = "jms:/" := rfl
  simp [constructAPIDef, hh, hj, hd, hne, qsStringifyNoEncode,
    intercalate_pair, hmerge, String.append_assoc]

/-- C1 (witness): the two-parameter example of the spec. -/
theorem constructAPIDef_jms_url_witness :
    (constructAPIDef "admin" "Production" sampleJmsDef
        none).endpointConfig.production_endpoints.url = some "jms:/D?a=1&b=2" ∧
    (constructAPIDef "admin" "Production" sampleJmsDef none).type = some "HTTP" := by
  have h := constructAPIDef_jms_url "admin" "Production" sampleJmsDef none
    { destination := some "D", parameters := [("a", "1"), ("b", "2")] } "D"
    rfl rfl rfl (by decide)
  exact ⟨h.2.1.trans (by decide), h.1⟩

/-- C2 (code bug, evaluated at the failing input): on a failing HTTP
call, the `createAPIDef` catch handler logs the error but rejects its
promise with the RESULT of the logging routine (`undefined`), not with
the error object itself — unlike every other operation (contrasted here
with `updateAPIDef`, which rejects with the error).  The claim and the
spec say the rejection carries the underlying error. -/
theorem createAPIDef_rejects_with_renderError_result :
    createAPIDefCatch ⟨500, "Internal Server Error"⟩ =
      { logged := [⟨500, "Internal Server Error"⟩]
        rejection := RejectValue.jsUndefined } ∧
    RejectValue.jsUndefined ≠ RejectValue.err ⟨500, "Internal Server Error"⟩ ∧
    (updateAPIDefCatch ⟨500, "Internal Server Error"⟩).rejection =
      RejectValue.err ⟨500, "Internal Server Error"⟩ := by
  refine ⟨rfl, by decide, rfl⟩

/-- C3: on `isCertUploaded` and `removeCert` a vendor error code 404,
and on `uploadCert` a vendor error code 409, rejects the error without
any error-logging call; every other code on those operations is logged
exactly once and still rejected with the error. -/
theorem cert_ops_log_suppression (e : HttpError) :
    (e.code = 404 →
      isCertUploadedCatch e = ⟨[], RejectValue.err e⟩ ∧
      removeCertCatch e = ⟨[], RejectValue.err e⟩) ∧
    (e.code ≠ 404 →
      (isCertUploadedCatch e).logged = [e] ∧
      (isCertUploadedCatch e).rejection = RejectValue.err e ∧
      (removeCertCatch e).logged = [e] ∧
      (removeCertCatch e).rejection = RejectValue.err e) ∧
    (e.code = 409 → uploadCertCatch e = ⟨[], RejectValue.err e⟩) ∧
    (e.code ≠ 409 →
      (uploadCertCatch e).logged = [e] ∧
      (uploadCertCatch e).rejection = RejectValue.err e) := by
  refine ⟨fun h => ?_, fun h => ?_, fun h => ?_, fun h => ?_⟩ <;>
    simp [isCertUploadedCatch, removeCertCatch, uploadCertCatch, h]

/-- C3 (witness): concrete suppressed and non-suppressed errors. -/
theorem cert_ops_log_suppression_witness :
    (isCertUploadedCatch ⟨404, "not found"⟩).logged = [] ∧
    (removeCertCatch ⟨404, "not found"⟩).rejection =
      RejectValue.err ⟨404, "not found"⟩ ∧
    (uploadCertCatch ⟨409, "exists"⟩).logged = [] ∧
    (isCertUploadedCatch ⟨500, "boom"⟩).logged = [⟨500, "boom"⟩] ∧
    (uploadCertCatch ⟨500, "boom"⟩).rejection = RejectValue.err ⟨500, "boom"⟩ := by
  have h404 := (cert_ops_log_suppression ⟨404, "not found"⟩).1 rfl
  have h409 := (cert_ops_log_suppression ⟨409, "exists"⟩).2.2.1 rfl
  have h500a := (cert_ops_log_suppression ⟨500, "boom"⟩).2.1 (by decide)
  have h500b := (cert_ops_log_suppression ⟨500, "boom"⟩).2.2.2 (by decide)
  exact ⟨by rw [h404.1], by rw [h404.2], by rw [h409], h500a.1, h500b.2⟩

/-- C4: a declared CORS block yields a configuration with enabled=true,
caller-specified values where given and the vendor defaults where not;
no declared CORS block yields no CORS configuration at all. -/
theorem constructAPIDef_cors (u g : String) (d : ApiDef) (i : Option String) :
    (∀ c, d.cors = some c →
      (constructAPIDef u g d i).corsConfiguration =
        some { corsConfigurationEnabled := true
               accessControlAllowOrigins := c.origins.getD ["*"]
               accessControlAllowCredentials := c.credentials.getD false
               accessControlAllowHeaders := c.headers.getD
                 ["Authorization", "Access-Control-Allow-Origin",
                  "Content-Type", "SOAPAction"]
               accessControlAllowMethods := c.methods.getD
                 ["GET", "PUT", "POST", "DELETE", "PATCH", "OPTIONS"] }) ∧
    (d.cors = none → (constructAPIDef u g d i).corsConfiguration = none) := by
  constructor
  · intro c hc
    simp [constructAPIDef, hc, constructCorsConfiguration]
  · intro hc
    simp [constructAPIDef, hc]

/-- C4 (witness): a CORS block with only origins set takes the supplied
origins and all four vendor defaults; a definition without a CORS block
produces no CORS configuration. -/
theorem constructAPIDef_cors_witness :
    (constructAPIDef "admin" "Production" corsOriginsDef none).corsConfiguration =
      some { corsConfigurationEnabled := true
             accessControlAllowOrigins := ["https://www.example.com"]
             accessControlAllowCredentials := false
             accessControlAllowHeaders :=
               ["Authorization", "Access-Control-Allow-Origin",
                "Content-Type", "SOAPAction"]
             accessControlAllowMethods :=
               ["GET", "PUT", "POST", "DELETE", "PATCH", "OPTIONS"] } ∧
    (constructAPIDef "admin" "Production" sampleHttpDef none).corsConfiguration =
      none := by
  refine ⟨?_, (constructAPIDef_cors "admin" "Production" sampleHttpDef none).2 rfl⟩
  have h := (constructAPIDef_cors "admin" "Production" corsOriginsDef none).1
    { origins := some ["https://www.example.com"], credentials := none,
      headers := none, methods := none } rfl
  exact h.trans (by decide)

/-- C5: an HTTP backend with a base URL yields declared type `HTTP` and
the base URL copied verbatim into both the production and the sandbox
endpoint URL of the endpoint configuration. -/
theorem constructAPIDef_http_verbatim (u g : String) (d : ApiDef) (i : Option String)
    (h : HttpBackend) (b : String)
    (hh : d.backend.http = some h) (hb : h.baseUrl = some b) (hne : b ≠ "") :
    (constructAPIDef u g d i).type = some "HTTP" ∧
    (constructAPIDef u g d i).endpointConfig.production_endpoints.url = some b ∧
    (constructAPIDef u g d i).endpointConfig.sandbox_endpoints.url = some b := by
  simp [constructAPIDef, hh, hb, jsTruthy, hne]

/-- C5 (witness): the sample HTTP-backed definition. -/
theorem constructAPIDef_http_verbatim_witness :
    (constructAPIDef "admin" "Production" sampleHttpDef none).type = some "HTTP" ∧
    (constructAPIDef "admin" "Production" sampleHttpDef
        none).endpointConfig.production_endpoints.url =
      some "https://backend.example.com:8443/api" ∧
    (constructAPIDef "admin" "Production" sampleHttpDef
        none).endpointConfig.sandbox_endpoints.url =
      some "https://backend.example.com:8443/api" :=
  constructAPIDef_http_verbatim "admin" "Production" sampleHttpDef none
    { baseUrl := some "https://backend.example.com:8443/api" }
    "https://backend.example.com:8443/api" rfl rfl (by decide)

/-- C6: `constructAPIDef` is a pure, deterministic function — two calls
with identical inputs (the same `apiId` included) give deep-equal
outputs.  Purity itself is carried by the embedding: the source body
only reads its arguments (its error-logging branch is unreachable on
well-formed input, and the final resets of two local variables have no
observable effect). -/
theorem constructAPIDef_deterministic (u u2 g g2 : String) (d d2 : ApiDef)
    (i i2 : Option String) (hu : u = u2) (hg : g = g2) (hd : d = d2) (hi : i = i2) :
    constructAPIDef u g d i = constructAPIDef u2 g2 d2 i2 := by
  subst hu; subst hg; subst hd; subst hi; rfl

/-- C6 (witness): two identical concrete calls agree. -/
theorem constructAPIDef_deterministic_witness :
    constructAPIDef "admin" "Production" sampleHttpDef (some "api-id-1") =
      constructAPIDef "admin" "Production" sampleHttpDef (some "api-id-1") :=
  constructAPIDef_deterministic "admin" "admin" "Production" "Production"
    sampleHttpDef sampleHttpDef (some "api-id-1") (some "api-id-1") rfl rfl rfl rfl

/-- C7: the output always has status `CREATED`, isDefaultVersion false,
transport `[https]`, tiers `[Unlimited]`, subscription availability
`current_tenant`, an empty subscriptionAvailableTenants list, and the
caller tags with the marker tag `serverless-wso2-apim` appended at the
end. -/
theorem constructAPIDef_fixed_fields (u g : String) (d : ApiDef) (i : Option String) :
    (constructAPIDef u g d i).status = "CREATED" ∧
    (constructAPIDef u g d i).isDefaultVersion = false ∧
    (constructAPIDef u g d i).transport = ["https"] ∧
    (constructAPIDef u g d i).tiers = ["Unlimited"] ∧
    (constructAPIDef u g d i).subscriptionAvailability = "current_tenant" ∧
    (constructAPIDef u g d i).subscriptionAvailableTenants = [] ∧
    (constructAPIDef u g d i).tags = d.tags ++ ["serverless-wso2-apim"] :=
  ⟨rfl, rfl, rfl, rfl, rfl, rfl, rfl⟩

/-- C8: when both an HTTP and a JMS backend are present, the mapper does
not fail and does not validate mutual exclusivity: the output is the
same as with the JMS backend removed (the JMS block is ignored
entirely), the declared type is `HTTP`, and the HTTP base URL becomes
the backend URL. -/
theorem constructAPIDef_prefers_http (u g : String) (d : ApiDef) (i : Option String)
    (h : HttpBackend) (j : JmsBackend)
    (hh : d.backend.http = some h) (_hj : d.backend.jms = some j) :
    (constructAPIDef u g d i).type = some "HTTP" ∧
    constructAPIDef u g d i =
      constructAPIDef u g { d with backend := { d.backend with jms := none } } i ∧
    (∀ b, h.baseUrl = some b → b ≠ "" →
      (constructAPIDef u g d i).endpointConfig.production_endpoints.url = some b) := by
  refine ⟨?_, ?_, ?_⟩
  · simp [constructAPIDef, hh]
  · simp [constructAPIDef, hh]
  · intro b hb hne
    simp [constructAPIDef, hh, hb, jsTruthy, hne]

/-- C8 (witness): a definition carrying both backends maps like its
JMS-free restriction and takes the HTTP base URL. -/
theorem constructAPIDef_prefers_http_witness :
    (constructAPIDef "admin" "Production" bothBackendsDef none).type = some "HTTP" ∧
    constructAPIDef "admin" "Production" bothBackendsDef none =
      constructAPIDef "admin" "Production"
        { bothBackendsDef with
          backend := { bothBackendsDef.backend with jms := none } } none ∧
    (constructAPIDef "admin" "Production" bothBackendsDef
        none).endpointConfig.production_endpoints.url =
      some "https://backend.example.com:8443/api" := by
  have h := constructAPIDef_prefers_http "admin" "Production" bothBackendsDef none
    { baseUrl := some "https://backend.example.com:8443/api" }
    { destination := some "D", parameters := [("a", "1")] } rfl rfl
  exact ⟨h.1, h.2.1, h.2.2 "https://backend.example.com:8443/api" rfl (by decide)⟩

/-- C9: on well-formed raw input (backend descriptor, tags array and
swagger document all present) the mapper runs its happy path: no
exception escapes (none is raised) and a fully constructed vendor
definition is returned. -/
theorem constructAPIDefRaw_total_on_wellformed (u g : String) (d : RawApiDef)
    (i : Option String) (b : Backend) (t : List String) (s : SwaggerSpec)
    (hb : d.backend = some b) (ht : d.tags = some t) (hs : d.swaggerSpec = some s) :
    ∃ v, constructAPIDefRaw u g d i = some v := by
  unfold constructAPIDefRaw
  rw [hb, ht, hs]
  exact ⟨_, rfl⟩

/-- C9 (witness): the sample raw definition is well-formed and maps to a
vendor definition. -/
theorem constructAPIDefRaw_total_witness :
    ∃ v, constructAPIDefRaw "admin" "Production" sampleRawDef none = some v :=
  constructAPIDefRaw_total_on_wellformed "admin" "Production" sampleRawDef none
    _ _ _ rfl rfl rfl

/-- C10 (counterexample): the claim says `endpoint_type` equals the
caller-supplied `backend.endpointType` whenever that field is set.  Set
to the empty string (falsy in JS), the ternary in the source falls back
to `http`, so the output differs from the supplied value. -/
theorem endpoint_type_empty_counterexample :
    emptyEndpointTypeDef.backend.endpointType = some "" ∧
    (constructAPIDef "admin" "Production" emptyEndpointTypeDef
        none).endpointConfig.endpoint_type ≠ "" := by
  refine ⟨rfl, by decide⟩

/-- C10 (amended): `endpoint_type` equals the caller-supplied
`backend.endpointType` when that field is set to a NONEMPTY string, and
`http` otherwise (unset or set to the empty string); the value does not
depend on which backend kind is present, and it is a single field of
the endpoint configuration, hence shared by the production and sandbox
endpoints. -/
theorem constructAPIDef_endpoint_type (u g : String) (d : ApiDef) (i : Option String) :
    (∀ s, d.backend.endpointType = some s → s ≠ "" →
      (constructAPIDef u g d i).endpointConfig.endpoint_type = s) ∧
    (d.backend.endpointType = none ∨ d.backend.endpointType = some "" →
      (constructAPIDef u g d i).endpointConfig.endpoint_type = "http") ∧
    (∀ hb jb,
      (constructAPIDef u g
        { d with backend := { http := hb, jms := jb,
                              endpointType := d.backend.endpointType } }
        i).endpointConfig.endpoint_type =
      (constructAPIDef u g d i).endpointConfig.endpoint_type) := by
  refine ⟨?_, ?_, ?_⟩
  · intro s hset hne
    simp [constructAPIDef, hset, jsTruthy, hne]
  · intro hcase
    rcases hcase with hnone | hempty
    · simp [constructAPIDef, hnone, jsTruthy]
    · simp [constructAPIDef, hempty, jsTruthy]
  · intro hb jb
    rfl

/-- C10 (witness): a nonempty override is taken as-is; an absent
override gives `http`. -/
theorem constructAPIDef_endpoint_type_witness :
    (constructAPIDef "admin" "Production" addressEndpointTypeDef
        none).endpointConfig.endpoint_type = "address" ∧
    (constructAPIDef "admin" "Production" sampleHttpDef
        none).endpointConfig.endpoint_type = "http" :=
  ⟨(constructAPIDef_endpoint_type "admin" "Production" addressEndpointTypeDef
      none).1 "address" rfl (by decide),
   (constructAPIDef_endpoint_type "admin" "Production" sampleHttpDef
      none).2.1 (Or.inl rfl)⟩

end Wso2
